import Mathlib

/-!
Shallow embedding of the `escrow-lisk` meta-transaction relayer
(`src/relayer/src/services/relayer.js`, `src/relayer/src/services/contracts.js`,
`src/relayer/src/index.js`).

Modelling conventions:
* Addresses, escrow ids, document hashes, signatures and transaction hashes
  are `String`s (JS strings).  `uint256` quantities (amounts, nonces, balances,
  gas) are `Nat`: all on-chain quantities are non-negative and no arithmetic
  in the relayer can overflow a JS `BigInt`.
* Every chain / RPC call the service performs is mediated by an `Env` record
  of oracles.  A call either returns a value or throws (`Except String`),
  mirroring the `async` calls in the source, which the service `await`s and
  whose rejections propagate as thrown errors.
* Each relay operation is a value in a writer-over-except monad `M`:
  alongside the result it records the ordered `trace` of externally visible
  actions (chain reads, cryptographic verification, gas estimation,
  simulation, contract writes).  Claims about "before" / "at most once" are
  statements about this trace.
* EIP-712 verification (`viem.verifyTypedData`) is modelled with an ideal
  recovery oracle `Env.recover`: a signature determines at most one
  (signer, typed message) pair, and verification succeeds iff the recovered
  pair matches the claimed address and the reconstructed message.  This is
  the standard idealisation of EIP-712/ECDSA.
-/

set_option maxRecDepth 4000

namespace EscrowLisk

/-- The four relayed contract calls, with their argument lists, mirroring the
`methodMap` of `contracts.js` and the argument tuples built in `relayer.js`. -/
inductive Call where
  | relayCreateEscrow (seller : String) (amount : Nat) (token : String)
      (deliveryDeadline : Nat) (buyer : String) (signature : String)
  | relayFundEscrow (escrowId : String) (buyer : String) (signature : String)
  | relayConfirmDelivery (escrowId : String) (buyer : String) (signature : String)
  | relayStoreDocument (escrowId : String) (documentHash : String)
      (seller : String) (signature : String)
deriving DecidableEq, Repr

/-- EIP-712 typed messages, one constructor per schema in `RelayerService.types`
(`relayer.js` lines 16-37), field order as in the source. -/
inductive TypedMessage where
  | createEscrow (seller : String) (amount : Nat) (token : String)
      (deliveryDeadline : Nat) (nonce : Nat)
  | fundEscrow (escrowId : String) (nonce : Nat)
  | confirmDelivery (escrowId : String) (nonce : Nat)
  | storeDocument (escrowId : String) (documentHash : String) (nonce : Nat)
deriving DecidableEq, Repr

/-- The `nonce` field of a typed message. -/
def TypedMessage.nonce : TypedMessage → Nat
  | .createEscrow _ _ _ _ n => n
  | .fundEscrow _ n => n
  | .confirmDelivery _ n => n
  | .storeDocument _ _ n => n

/-- One event log of a transaction receipt (`log.topics`). -/
structure Log where
  topics : List String
deriving DecidableEq, Repr

/-- Transaction receipt as consumed by the service (`transactionHash`,
`gasUsed`, `logs`). -/
structure Receipt where
  transactionHash : String
  gasUsed : Nat
  logs : List Log
deriving DecidableEq, Repr

/-- Externally visible actions of the service, in the order performed.
`writeContract` is the single on-chain mutation (the submission). -/
inductive Event where
  | getNonce (address : String)
  | verifySig (address : String) (signature : String)
  | getRelayerBalance
  | getEscrowDetails (escrowId : String)
  | getUserBalance (address : String)
  | getUserAllowance (address : String)
  | estimateGas (c : Call)
  | getGasPrice
  | simulate (c : Call) (gas : Nat) (gasPrice : Nat)
  | writeContract (c : Call) (gas : Nat) (gasPrice : Nat)
  | waitForReceipt (hash : String)
deriving DecidableEq, Repr

/-- Escrow snapshot returned by `getEscrowDetails` (`contracts.js` 94-116).
Only the fields the relayer reads are listed first; the rest are carried
for fidelity. -/
structure EscrowDetails where
  buyer : String
  seller : String
  amount : Nat
  deliveryDeadline : Nat
  status : Nat
  token : String
  fundedAt : Nat
  settledAt : Nat
  disputeResolved : Bool
deriving DecidableEq, Repr

/-- A prepared transaction request, as produced by `simulateContract` and
consumed by `writeContract` (`contracts.js` 192-212). -/
structure PreparedRequest where
  call : Call
  gas : Nat
  gasPrice : Nat
deriving DecidableEq, Repr

/-- Oracle environment: one field per external call the service makes.
`Except.error` models the underlying promise rejecting / the call throwing. -/
structure Env where
  /-- Chain read `nonces(address)` from the escrow contract (`contracts.js` 85-92). -/
  nonces : String → Except String Nat
  /-- Chain read `getEscrowDetails(escrowId)` (`contracts.js` 94-116). -/
  escrowDetails : String → Except String EscrowDetails
  /-- USDC `balanceOf(address)` (`contracts.js` 118-125). -/
  userBalance : String → Except String Nat
  /-- USDC `allowance(address, escrow)` (`contracts.js` 127-134). -/
  userAllowance : String → Except String Nat
  /-- relayer wallet native balance (`contracts.js` 136-140). -/
  relayerBalance : Except String Nat
  /-- Chain call `estimateContractGas` for a call (`contracts.js` 142-170). -/
  estimateGas : Call → Except String Nat
  /-- Chain read `getGasPrice()` (`contracts.js` 175). -/
  gasPrice : Except String Nat
  /-- Value of `Math.floor((process.env.GAS_PRICE_MULTIPLIER || 1.1) * 100)`
  (`contracts.js` 176); `110` when the variable is unset, since
  `1.1 * 100` evaluates to `110.00000000000001` and floors to `110`. -/
  gasMult100 : Nat
  /-- Chain call `simulateContract` at given call, gas and gas price (`contracts.js`
  194-202); returns the prepared request. -/
  simulate : Call → Nat → Nat → Except String PreparedRequest
  /-- Chain write `walletClient.writeContract(request)` (`contracts.js` 212): returns the
  transaction hash. -/
  writeContract : PreparedRequest → Except String String
  /-- Chain poll `waitForTransactionReceipt` (`contracts.js` 220-224). -/
  waitForReceipt : String → Except String Receipt
  /-- ideal EIP-712 recovery: the (signer, message) pair a signature commits
  to under the fixed domain, if any.  `viem.verifyTypedData` succeeds iff
  this pair matches the claimed address and reconstructed message. -/
  recover : String → Option (String × TypedMessage)
  /-- Local `viem.getAddress` checksum normalisation; throws on an invalid
  address string (`relayer.js` 55-57). -/
  checksum : String → Except String String
  /-- Hash `keccak256(toHex(s))`, used for the event signature topic
  (`relayer.js` 296); modelled as an abstract hash. -/
  keccak256 : String → String

namespace JsString

/-- JS `String.prototype.startsWith(p)`: `p` is a prefix of the string.
Defined over the character list so that it evaluates by kernel reduction. -/
def startsWith (s p : String) : Bool :=
  p.data.isPrefixOf s.data

/-- JS `string.length` (UTF-16 code units; identical to the character count
on the ASCII signatures and hashes handled here). -/
def length (s : String) : Nat :=
  s.data.length

end JsString

instance {ε α : Type} [DecidableEq ε] [DecidableEq α] : DecidableEq (Except ε α) := fun x y =>
  match x, y with
  | .ok a, .ok b =>
      if h : a = b then .isTrue (by rw [h]) else .isFalse (by simp [h])
  | .error e, .error f =>
      if h : e = f then .isTrue (by rw [h]) else .isFalse (by simp [h])
  | .ok _, .error _ => .isFalse (by simp)
  | .error _, .ok _ => .isFalse (by simp)

/-- Writer-over-except monad: a result plus the ordered trace of events the
computation performed before returning or throwing. -/
structure M (α : Type) where
  res : Except String α
  trace : List Event
deriving Repr, DecidableEq

namespace M

def bind {α β : Type} (x : M α) (f : α → M β) : M β :=
  match x.res with
  | .ok a => let y := f a; ⟨y.res, x.trace ++ y.trace⟩
  | .error e => ⟨.error e, x.trace⟩

instance instMonad : Monad M where
  pure a := ⟨.ok a, []⟩
  bind := M.bind

/-- record one event. -/
def emit (e : Event) : M Unit := ⟨.ok (), [e]⟩

/-- Model of `throw new Error(msg)`. -/
def throwErr {α : Type} (msg : String) : M α := ⟨.error msg, []⟩

/-- perform an external call: record its event, then return its value or
propagate its rejection. -/
def chainCall {α : Type} (ev : Event) (r : Except String α) : M α :=
  ⟨r, [ev]⟩

/-- lift a local (non-chain) fallible computation, e.g. `viem.getAddress`. -/
def lift {α : Type} (r : Except String α) : M α :=
  ⟨r, []⟩

end M

/-- Result of `relayCreateEscrow` (`relayer.js` 113-118).  `escrowId` is
`Option String` because `log.topics[1]` is `undefined` in JS when the
matched log has fewer than two topics. -/
structure CreateEscrowResult where
  success : Bool
  escrowId : Option String
  transactionHash : String
  gasUsed : Nat
deriving DecidableEq, Repr

/-- Result of the other three relay operations (`relayer.js` 177-181,
227-231, 284-288). -/
structure RelayResult where
  success : Bool
  transactionHash : String
  gasUsed : Nat
deriving DecidableEq, Repr

/-- Model of `viem.verifyTypedData` under the ideal recovery model: record that a
cryptographic recovery was attempted, then compare the recovered
(signer, message) pair with the claimed address and reconstructed message. -/
def verifyTypedData (env : Env) (address : String) (message : TypedMessage)
    (signature : String) : M Bool := do
  M.emit (.verifySig address signature)
  match env.recover signature with
  | some (signer, m) => pure (signer == address && m == message)
  | none => pure false

/-- Value of `parseEther('0.01')`: the relayer balance floor in wei. -/
def parseEther001 : Nat := 10 ^ 16

/-- Computation `gasPrice * BigInt(Math.floor(mult * 100)) / BigInt(100)`
(`contracts.js` 176): BigInt arithmetic, truncating division. -/
def adjustedGasPrice (gasPrice mult100 : Nat) : Nat :=
  gasPrice * mult100 / 100

/-- Embedding of `ContractService.executeTransaction` (`contracts.js` 172-234): read the
gas price, adjust it, simulate, submit via `writeContract`, await the
receipt.  The source's `try`/`catch` blocks around simulation and around the
whole body only log and rethrow, so they are semantically transparent; the
`methodMap` lookup always succeeds because `Call` enumerates exactly the four
mapped methods, so the `Unknown method` branch is unreachable. -/
def executeTransaction (env : Env) (method : Call) (gasLimit : Nat) : M Receipt := do
  let gasPrice ← M.chainCall .getGasPrice env.gasPrice
  let adjusted := adjustedGasPrice gasPrice env.gasMult100
  let request ← M.chainCall (.simulate method gasLimit adjusted)
    (env.simulate method gasLimit adjusted)
  let hash ← M.chainCall (.writeContract request.call request.gas request.gasPrice)
    (env.writeContract request)
  let receipt ← M.chainCall (.waitForReceipt hash) (env.waitForReceipt hash)
  pure receipt

/-- Literal `'EscrowCreated(bytes32,address,address,uint256,uint256)'`
(`relayer.js` 296). -/
def escrowCreatedSigText : String :=
  "EscrowCreated(bytes32,address,address,uint256,uint256)"

/-- Embedding of `RelayerService.extractEscrowIdFromLogs` (`relayer.js` 291-304): scan the
logs for the first one whose topic 0 is the `EscrowCreated` event signature
and return its `topics[1]` (`none` models JS `undefined`); throw if no log
matches. -/
def extractEscrowIdFromLogs (env : Env) : List Log → Except String (Option String)
  | [] => .error "EscrowCreated event not found in transaction logs"
  | log :: rest =>
    match log.topics with
    | t0 :: ts =>
        if t0 == env.keccak256 escrowCreatedSigText then .ok ts.head?
        else extractEscrowIdFromLogs env rest
    | [] => extractEscrowIdFromLogs env rest

/-- Response assembly of `relayCreateEscrow` after the transaction confirmed
(`relayer.js` 103-118): try to extract the escrow id from the receipt logs;
on failure fall back to the transaction hash; always report success. -/
def createEscrowResponse (env : Env) (receipt : Receipt) : CreateEscrowResult :=
  { success := true
    escrowId :=
      match extractEscrowIdFromLogs env receipt.logs with
      | .ok id => id
      | .error _ => some receipt.transactionHash
    transactionHash := receipt.transactionHash
    gasUsed := receipt.gasUsed }

/-- Embedding of `RelayerService.relayCreateEscrow` (`relayer.js` 40-119). -/
def relayCreateEscrow (env : Env) (seller : String) (amount : Nat) (token : String)
    (deliveryDeadline : Nat) (buyer : String) (signature : String) :
    M CreateEscrowResult := do
  if !(JsString.startsWith signature "0x") || JsString.length signature != 132 then
    M.throwErr "Invalid signature format"
  let nonce ← M.chainCall (.getNonce buyer) (env.nonces buyer)
  let sellerA ← M.lift (env.checksum seller)
  let tokenA ← M.lift (env.checksum token)
  let message := TypedMessage.createEscrow sellerA amount tokenA deliveryDeadline nonce
  let isValid ← verifyTypedData env buyer message signature
  if !isValid then
    M.throwErr "Invalid signature"
  let balance ← M.chainCall .getRelayerBalance env.relayerBalance
  if balance < parseEther001 then
    M.throwErr "Relayer balance too low"
  let call := Call.relayCreateEscrow seller amount token deliveryDeadline buyer signature
  let gasLimit ← M.chainCall (.estimateGas call) (env.estimateGas call)
  let receipt ← executeTransaction env call gasLimit
  pure (createEscrowResponse env receipt)

/-- Embedding of `RelayerService.relayFundEscrow` (`relayer.js` 121-182). -/
def relayFundEscrow (env : Env) (escrowId buyer signature : String) : M RelayResult := do
  let nonce ← M.chainCall (.getNonce buyer) (env.nonces buyer)
  let message := TypedMessage.fundEscrow escrowId nonce
  let isValid ← verifyTypedData env buyer message signature
  if !isValid then
    M.throwErr "Invalid signature"
  let details ← M.chainCall (.getEscrowDetails escrowId) (env.escrowDetails escrowId)
  let bal ← M.chainCall (.getUserBalance buyer) (env.userBalance buyer)
  let allow ← M.chainCall (.getUserAllowance buyer) (env.userAllowance buyer)
  if bal < details.amount then
    M.throwErr "Insufficient USDC balance"
  if allow < details.amount then
    M.throwErr "Insufficient USDC allowance"
  let call := Call.relayFundEscrow escrowId buyer signature
  let gasLimit ← M.chainCall (.estimateGas call) (env.estimateGas call)
  let receipt ← executeTransaction env call gasLimit
  pure { success := true, transactionHash := receipt.transactionHash,
         gasUsed := receipt.gasUsed }

/-- Embedding of `RelayerService.relayConfirmDelivery` (`relayer.js` 184-232). -/
def relayConfirmDelivery (env : Env) (escrowId buyer signature : String) :
    M RelayResult := do
  let nonce ← M.chainCall (.getNonce buyer) (env.nonces buyer)
  let message := TypedMessage.confirmDelivery escrowId nonce
  let isValid ← verifyTypedData env buyer message signature
  if !isValid then
    M.throwErr "Invalid signature"
  let call := Call.relayConfirmDelivery escrowId buyer signature
  let gasLimit ← M.chainCall (.estimateGas call) (env.estimateGas call)
  let receipt ← executeTransaction env call gasLimit
  pure { success := true, transactionHash := receipt.transactionHash,
         gasUsed := receipt.gasUsed }

/-- Embedding of `RelayerService.relayStoreDocument` (`relayer.js` 234-289). -/
def relayStoreDocument (env : Env) (escrowId documentHash seller signature : String) :
    M RelayResult := do
  if !(JsString.startsWith documentHash "0x") || JsString.length documentHash != 66 then
    M.throwErr "Invalid document hash format"
  let nonce ← M.chainCall (.getNonce seller) (env.nonces seller)
  let message := TypedMessage.storeDocument escrowId documentHash nonce
  let isValid ← verifyTypedData env seller message signature
  if !isValid then
    M.throwErr "Invalid signature"
  let call := Call.relayStoreDocument escrowId documentHash seller signature
  let gasLimit ← M.chainCall (.estimateGas call) (env.estimateGas call)
  let receipt ← executeTransaction env call gasLimit
  pure { success := true, transactionHash := receipt.transactionHash,
         gasUsed := receipt.gasUsed }

/-- Is this event an on-chain write (a `writeContract` submission)? -/
def Event.isWrite : Event → Bool
  | .writeContract _ _ _ => true
  | _ => false

/-- Number of on-chain submissions recorded in a trace. -/
def writeCount (t : List Event) : Nat :=
  (t.filter Event.isWrite).length

/-- Is this event a gas-estimation call? -/
def Event.isEstimate : Event → Bool
  | .estimateGas _ => true
  | _ => false

/-- Number of gas-estimation calls recorded in a trace. -/
def estimateCount (t : List Event) : Nat :=
  (t.filter Event.isEstimate).length

/-- Is this event a cryptographic signature-recovery attempt? -/
def Event.isVerify : Event → Bool
  | .verifySig _ _ => true
  | _ => false

/-- Number of signature-recovery attempts recorded in a trace. -/
def verifyAttempts (t : List Event) : Nat :=
  (t.filter Event.isVerify).length

/-- Is this event a balance / allowance / escrow-status preflight read? -/
def Event.isPreflightRead : Event → Bool
  | .getEscrowDetails _ => true
  | .getUserBalance _ => true
  | .getUserAllowance _ => true
  | .getRelayerBalance => true
  | _ => false

/-- Number of preflight state reads recorded in a trace. -/
def preflightReadCount (t : List Event) : Nat :=
  (t.filter Event.isPreflightRead).length

/-! HTTP layer (`src/relayer/src/index.js`): JS request-body values,
the Express middleware chain (API-key gate, rate limiter) and the
missing-required-field validation of the four POST handlers. -/

/-- A JS value as it appears in a parsed JSON request body field.
`undef` models an absent field (`undefined`). -/
inductive JsValue where
  | undef
  | nullv
  | boolean (b : Bool)
  | number (n : Int)
  | nan
  | str (s : String)
deriving DecidableEq, Repr

/-- JS truthiness: `undefined`, `null`, `false`, `0`, `NaN` and `''` are
falsy; everything else is truthy. -/
def JsValue.truthy : JsValue → Bool
  | .undef => false
  | .nullv => false
  | .boolean b => b
  | .number n => n != 0
  | .nan => false
  | .str s => s != ""

/-- Outcome of a POST route handler's input validation (`index.js` 83-185):
either the handler returns 400 without touching the service, or it invokes
the corresponding `relayerService` method. -/
inductive RouteOutcome where
  | badRequest (msg : String)
  | callService
deriving DecidableEq, Repr

/-- Body of `POST /relay/create-escrow` (`index.js` 85). -/
structure CreateEscrowBody where
  seller : JsValue
  amount : JsValue
  token : JsValue
  deliveryDeadline : JsValue
  buyer : JsValue
  signature : JsValue
deriving DecidableEq, Repr

/-- Input validation of `POST /relay/create-escrow` (`index.js` 88-90):
`if (!seller || !amount || !token || !deliveryDeadline || !buyer ||
!signature) return 400`. -/
def createEscrowRoute (b : CreateEscrowBody) : RouteOutcome :=
  if !b.seller.truthy || !b.amount.truthy || !b.token.truthy
      || !b.deliveryDeadline.truthy || !b.buyer.truthy || !b.signature.truthy then
    .badRequest "Missing required fields"
  else .callService

/-- Body of `POST /relay/fund-escrow` and `POST /relay/confirm-delivery`
(`index.js` 114, 139). -/
structure EscrowActionBody where
  escrowId : JsValue
  buyer : JsValue
  signature : JsValue
deriving DecidableEq, Repr

/-- Input validation of `POST /relay/fund-escrow` (`index.js` 116-118). -/
def fundEscrowRoute (b : EscrowActionBody) : RouteOutcome :=
  if !b.escrowId.truthy || !b.buyer.truthy || !b.signature.truthy then
    .badRequest "Missing required fields"
  else .callService

/-- Input validation of `POST /relay/confirm-delivery` (`index.js` 141-143). -/
def confirmDeliveryRoute (b : EscrowActionBody) : RouteOutcome :=
  if !b.escrowId.truthy || !b.buyer.truthy || !b.signature.truthy then
    .badRequest "Missing required fields"
  else .callService

/-- Body of `POST /relay/store-document` (`index.js` 164). -/
structure StoreDocumentBody where
  escrowId : JsValue
  documentHash : JsValue
  seller : JsValue
  signature : JsValue
deriving DecidableEq, Repr

/-- Input validation of `POST /relay/store-document` (`index.js` 166-168). -/
def storeDocumentRoute (b : StoreDocumentBody) : RouteOutcome :=
  if !b.escrowId.truthy || !b.documentHash.truthy || !b.seller.truthy
      || !b.signature.truthy then
    .badRequest "Missing required fields"
  else .callService

/-- Inbound HTTP request as seen by the middleware chain: path,
optional `x-api-key` header, client IP. -/
structure HttpRequest where
  path : String
  headerApiKey : Option String
  ip : String
deriving DecidableEq, Repr

/-- Server configuration: `process.env.API_KEY` (`none` when unset or empty,
i.e. falsy in JS) and `process.env.RATE_LIMIT || 100` points per window. -/
structure AppConfig where
  apiKeyEnv : Option String
  rateLimitPoints : Nat
deriving Repr

/-- In-memory rate-limiter state within one rolling window: points consumed
per client key (`RateLimiterMemory`, `index.js` 14-17). -/
structure RateLimiterState where
  consumed : String → Nat

/-- Model of `rateLimiter.consume(key)` (`rate-limiter-flexible`): succeeds and
consumes one point iff the key has consumed fewer than `pts` points in the
current window; otherwise rejects and leaves the state unchanged. -/
def RateLimiterState.consume (st : RateLimiterState) (pts : Nat) (key : String) :
    Bool × RateLimiterState :=
  if st.consumed key < pts then
    (true, ⟨fun k => if k == key then st.consumed k + 1 else st.consumed k⟩)
  else
    (false, st)

/-- Middleware responses and route dispatch results relevant to the claims:
`health` is the 200 `{status, timestamp, uptime}` payload (`index.js` 57-63),
`unauthorized` the 401 `{error: 'Invalid API key'}` (`index.js` 34),
`tooMany` the 429 `{error: 'Too many requests', retryAfter}` (`index.js`
45-48), and `dispatched` means the request reached the remaining routes. -/
inductive Response where
  | health
  | unauthorized
  | tooMany
  | dispatched (path : String)
deriving DecidableEq, Repr

/-- API-key middleware (`index.js` 28-37): `/health` is skipped; otherwise,
when `API_KEY` is configured, a missing or different `x-api-key` header is
rejected with 401. -/
def apiKeyGate (cfg : AppConfig) (req : HttpRequest) : Option Response :=
  if req.path == "/health" then none
  else
    match cfg.apiKeyEnv with
    | some key => if req.headerApiKey != some key then some .unauthorized else none
    | none => none

/-- The middleware chain of `index.js` in registration order: API-key gate
(28-37), then the rate limiter (40-50) — which consumes a point for **every**
path, `/health` included — then the routes (57 onwards). -/
def handleRequest (cfg : AppConfig) (st : RateLimiterState) (req : HttpRequest) :
    Response × RateLimiterState :=
  match apiKeyGate cfg req with
  | some r => (r, st)
  | none =>
    match st.consume cfg.rateLimitPoints req.ip with
    | (true, st') =>
        (if req.path == "/health" then .health else .dispatched req.path, st')
    | (false, _) => (.tooMany, st)

/-! Concrete inputs and environments used to evaluate the embedded service
on explicit requests. -/

/-- Helper: does an oracle call result model a thrown error? -/
def isErr {α : Type} : Except String α → Bool
  | .error _ => true
  | .ok _ => false

/-- Structural well-formedness of a `bytes32` value as `viem` checks it
during typed-data validation: 0x-prefixed and 66 characters
(`size(hex) = (length - 2) / 2 = 32` bytes, else `BytesSizeMismatchError`). -/
def wellFormedBytes32 (s : String) : Bool :=
  JsString.startsWith s "0x" && JsString.length s == 66

/-- Whether a typed message is ABI-encodable, i.e. whether its typed-data
hash exists: `viem`'s `hashTypedData` validates every `bytes32` field and
throws a size-mismatch error for a value that is not 0x-prefixed 32-byte
hex, before any signature recovery.  `CreateEscrow` carries no `bytes32`
fields. -/
def TypedMessage.encodable : TypedMessage → Bool
  | .createEscrow _ _ _ _ _ => true
  | .fundEscrow e _ => wellFormedBytes32 e
  | .confirmDelivery e _ => wellFormedBytes32 e
  | .storeDocument e d _ => wellFormedBytes32 e && wellFormedBytes32 d

/-- Physical soundness of a recovery oracle: an EIP-712 signature only
exists over a message whose typed-data hash exists, so ideal recovery can
only return encodable messages.  (Signing a message with an unencodable
`bytes32` field is impossible: the hash to be signed is undefined, and the
same validation makes server-side `verifyTypedData` throw before
recovery.) -/
def Env.recoverWellFormed (env : Env) : Prop :=
  ∀ sig s m, env.recover sig = some (s, m) → TypedMessage.encodable m = true

/-- A well-formed 132-character (0x-prefixed, 65-byte) signature string. -/
def sig132a : String := "0x" ++ String.mk (List.replicate 130 'a')

/-- A well-formed 66-character (0x-prefixed, 32-byte) document hash string. -/
def hash66b : String := "0x" ++ String.mk (List.replicate 64 'b')

/-- A concrete escrow snapshot with amount 100. -/
def escrowSnap : EscrowDetails :=
  ⟨"0xbuyer", "0xseller", 100, 99, 0, "0xtoken", 0, 0, false⟩

/-- A concrete environment in which every chain call succeeds and no
signature recovers (used as the base for the other environments). -/
def baseEnv : Env where
  nonces := fun _ => .ok 7
  escrowDetails := fun _ => .ok escrowSnap
  userBalance := fun _ => .ok 1000
  userAllowance := fun _ => .ok 1000
  relayerBalance := .ok (10 ^ 17)
  estimateGas := fun _ => .ok 21000
  gasPrice := .ok 1000
  gasMult100 := 110
  simulate := fun c g p => .ok ⟨c, g, p⟩
  writeContract := fun _ => .ok "0xtxhash"
  waitForReceipt := fun _ => .ok ⟨"0xtxhash", 42, []⟩
  recover := fun _ => none
  checksum := fun a => .ok a
  keccak256 := fun _ => "0xevsig"

/-- Environment whose authoritative chain nonce (8) has advanced past the
nonce (7) all four test signatures were produced over. -/
def envReplay : Env := { baseEnv with
  nonces := fun _ => .ok 8
  recover := fun s =>
    if s == sig132a then some ("0xbuyer", .createEscrow "0xseller" 5 "0xtoken" 99 7)
    else if s == "0xfund" then some ("0xbuyer", .fundEscrow "0xe" 7)
    else if s == "0xconf" then some ("0xbuyer", .confirmDelivery "0xe" 7)
    else if s == "0xstore" then some ("0xseller", .storeDocument "0xe" hash66b 7)
    else none }

/-- Environment in which the nonce read throws. -/
def envDown : Env := { baseEnv with nonces := fun _ => .error "rpc unreachable" }

/-- Environment in which four concrete signatures recover to the expected
signers over messages matching nonce 7 (the chain nonce), so verification
passes. -/
def envSigned : Env := { baseEnv with
  recover := fun s =>
    if s == sig132a then some ("0xbuyer", .createEscrow "0xseller" 5 "0xtoken" 99 7)
    else if s == "0xfund" then some ("0xbuyer", .fundEscrow "0xe" 7)
    else if s == "0xconf" then some ("0xbuyer", .confirmDelivery hash66b 7)
    else if s == "0xstore" then some ("0xseller", .storeDocument "0xe" hash66b 7)
    else none }

/-- Environment where the buyer's balance (10) is below the escrow amount. -/
def envShortBal : Env := { envSigned with userBalance := fun _ => .ok 10 }

/-- Environment where the balance suffices but the allowance (60) is short. -/
def envShortAllow : Env := { envSigned with
  userBalance := fun _ => .ok 500
  userAllowance := fun _ => .ok 60 }

/-- Environment where the relayer's native balance is below the 0.01 floor. -/
def envPoor : Env := { envSigned with relayerBalance := .ok (10 ^ 15) }

/-- Environment whose receipt carries an `EscrowCreated` log with escrow id
`0xid1` in topic 1. -/
def envEvent : Env := { envSigned with
  waitForReceipt := fun _ => .ok ⟨"0xtxhash", 42, [⟨["0xevsig", "0xid1"]⟩]⟩ }

/-- Server configuration with no API key and the default 100-point limit. -/
def plainConfig : AppConfig := ⟨none, 100⟩

/-- Rate-limiter state where one client has already consumed 100 points. -/
def exhaustedState : RateLimiterState := ⟨fun _ => 100⟩

/-- Rate-limiter state with no points consumed. -/
def freshState : RateLimiterState := ⟨fun _ => 0⟩

/-- A `GET /health` request without an API-key header. -/
def healthReq : HttpRequest := ⟨"/health", none, "203.0.113.7"⟩

/-! Helper lemmas shared by the claim theorems. -/

/-- Replay rejection for `relayCreateEscrow`: with the chain nonce `n`
read fresh and a signature over a message with nonce `N ≠ n`, verification
fails, the run throws `Invalid signature`, the trace is exactly the nonce
read followed by the recovery attempt, and no submission is issued. -/
theorem create_nonce_mismatch (env : Env) (seller : String) (amount : Nat)
    (token : String) (deliveryDeadline : Nat) (buyer signature : String)
    (N n : Nat) (signer : String) (m : TypedMessage) (sA tA : String)
    (h0x : JsString.startsWith signature "0x" = true)
    (hlen : JsString.length signature = 132)
    (hn : env.nonces buyer = .ok n)
    (hcs : env.checksum seller = .ok sA)
    (hct : env.checksum token = .ok tA)
    (hrec : env.recover signature = some (signer, m))
    (hmN : m.nonce = N) (hnN : n ≠ N) :
    (relayCreateEscrow env seller amount token deliveryDeadline buyer signature).res
        = .error "Invalid signature" ∧
    (relayCreateEscrow env seller amount token deliveryDeadline buyer signature).trace
        = [.getNonce buyer, .verifySig buyer signature] ∧
    writeCount (relayCreateEscrow env seller amount token deliveryDeadline
        buyer signature).trace = 0 := by
  have hmsg : m ≠ TypedMessage.createEscrow sA amount tA deliveryDeadline n := by
    intro h
    exact hnN (by rw [← hmN, h]; rfl)
  have hbeq : (m == TypedMessage.createEscrow sA amount tA deliveryDeadline n) = false :=
    beq_eq_false_iff_ne.mpr hmsg
  unfold relayCreateEscrow verifyTypedData
  simp [Bind.bind, M.bind, M.chainCall, M.emit, M.throwErr, M.lift, Pure.pure,
    M.instMonad, h0x, hlen, hn, hcs, hct, hrec, hbeq, writeCount, Event.isWrite]

/-- Replay rejection for `relayFundEscrow`. -/
theorem fund_nonce_mismatch (env : Env) (escrowId buyer signature : String)
    (N n : Nat) (signer : String) (m : TypedMessage)
    (hn : env.nonces buyer = .ok n)
    (hrec : env.recover signature = some (signer, m))
    (hmN : m.nonce = N) (hnN : n ≠ N) :
    (relayFundEscrow env escrowId buyer signature).res = .error "Invalid signature" ∧
    (relayFundEscrow env escrowId buyer signature).trace =
      [.getNonce buyer, .verifySig buyer signature] ∧
    writeCount (relayFundEscrow env escrowId buyer signature).trace = 0 := by
  have hmsg : m ≠ TypedMessage.fundEscrow escrowId n := by
    intro h
    exact hnN (by rw [← hmN, h]; rfl)
  have hbeq : (m == TypedMessage.fundEscrow escrowId n) = false :=
    beq_eq_false_iff_ne.mpr hmsg
  unfold relayFundEscrow verifyTypedData
  simp [Bind.bind, M.bind, M.chainCall, M.emit, M.throwErr, M.lift, Pure.pure,
    M.instMonad, hn, hrec, hbeq, writeCount, Event.isWrite]

/-- Replay rejection for `relayConfirmDelivery`. -/
theorem confirm_nonce_mismatch (env : Env) (escrowId buyer signature : String)
    (N n : Nat) (signer : String) (m : TypedMessage)
    (hn : env.nonces buyer = .ok n)
    (hrec : env.recover signature = some (signer, m))
    (hmN : m.nonce = N) (hnN : n ≠ N) :
    (relayConfirmDelivery env escrowId buyer signature).res = .error "Invalid signature" ∧
    (relayConfirmDelivery env escrowId buyer signature).trace =
      [.getNonce buyer, .verifySig buyer signature] ∧
    writeCount (relayConfirmDelivery env escrowId buyer signature).trace = 0 := by
  have hmsg : m ≠ TypedMessage.confirmDelivery escrowId n := by
    intro h
    exact hnN (by rw [← hmN, h]; rfl)
  have hbeq : (m == TypedMessage.confirmDelivery escrowId n) = false :=
    beq_eq_false_iff_ne.mpr hmsg
  unfold relayConfirmDelivery verifyTypedData
  simp [Bind.bind, M.bind, M.chainCall, M.emit, M.throwErr, M.lift, Pure.pure,
    M.instMonad, hn, hrec, hbeq, writeCount, Event.isWrite]

/-- Replay rejection for `relayStoreDocument` (the actor is the seller). -/
theorem store_nonce_mismatch (env : Env) (escrowId documentHash seller signature : String)
    (N n : Nat) (signer : String) (m : TypedMessage)
    (h0x : JsString.startsWith documentHash "0x" = true)
    (hlen : JsString.length documentHash = 66)
    (hn : env.nonces seller = .ok n)
    (hrec : env.recover signature = some (signer, m))
    (hmN : m.nonce = N) (hnN : n ≠ N) :
    (relayStoreDocument env escrowId documentHash seller signature).res
        = .error "Invalid signature" ∧
    (relayStoreDocument env escrowId documentHash seller signature).trace =
      [.getNonce seller, .verifySig seller signature] ∧
    writeCount (relayStoreDocument env escrowId documentHash seller
        signature).trace = 0 := by
  have hmsg : m ≠ TypedMessage.storeDocument escrowId documentHash n := by
    intro h
    exact hnN (by rw [← hmN, h]; rfl)
  have hbeq : (m == TypedMessage.storeDocument escrowId documentHash n) = false :=
    beq_eq_false_iff_ne.mpr hmsg
  unfold relayStoreDocument verifyTypedData
  simp [Bind.bind, M.bind, M.chainCall, M.emit, M.throwErr, M.lift, Pure.pure,
    M.instMonad, h0x, hlen, hn, hrec, hbeq, writeCount, Event.isWrite]

/-- The create-escrow run performs at most one on-chain write. -/
theorem create_writes_le_one (env : Env) (seller : String) (amount : Nat)
    (token : String) (deliveryDeadline : Nat) (buyer signature : String) :
    writeCount (relayCreateEscrow env seller amount token deliveryDeadline
      buyer signature).trace ≤ 1 := by
  unfold relayCreateEscrow executeTransaction verifyTypedData
  simp only [Bind.bind, M.bind, M.chainCall, M.emit, M.throwErr, M.lift, Pure.pure,
    M.instMonad]
  repeat' split
  all_goals simp [writeCount, Event.isWrite, List.filter_append]

/-- The fund-escrow run performs at most one on-chain write. -/
theorem fund_writes_le_one (env : Env) (escrowId buyer signature : String) :
    writeCount (relayFundEscrow env escrowId buyer signature).trace ≤ 1 := by
  unfold relayFundEscrow executeTransaction verifyTypedData
  simp only [Bind.bind, M.bind, M.chainCall, M.emit, M.throwErr, M.lift, Pure.pure,
    M.instMonad]
  repeat' split
  all_goals simp [writeCount, Event.isWrite, List.filter_append]

/-- The confirm-delivery run performs at most one on-chain write. -/
theorem confirm_writes_le_one (env : Env) (escrowId buyer signature : String) :
    writeCount (relayConfirmDelivery env escrowId buyer signature).trace ≤ 1 := by
  unfold relayConfirmDelivery executeTransaction verifyTypedData
  simp only [Bind.bind, M.bind, M.chainCall, M.emit, M.throwErr, M.lift, Pure.pure,
    M.instMonad]
  repeat' split
  all_goals simp [writeCount, Event.isWrite, List.filter_append]

/-- The store-document run performs at most one on-chain write. -/
theorem store_writes_le_one (env : Env) (escrowId documentHash seller signature : String) :
    writeCount (relayStoreDocument env escrowId documentHash seller signature).trace
      ≤ 1 := by
  unfold relayStoreDocument executeTransaction verifyTypedData
  simp only [Bind.bind, M.bind, M.chainCall, M.emit, M.throwErr, M.lift, Pure.pure,
    M.instMonad]
  repeat' split
  all_goals simp [writeCount, Event.isWrite, List.filter_append]

/-- If any step before submission fails in a create-escrow run, no on-chain
write is issued. -/
theorem create_zero_writes (env : Env) (seller : String) (amount : Nat)
    (token : String) (deliveryDeadline : Nat) (buyer signature : String)
    (h : ¬(JsString.startsWith signature "0x" = true ∧ JsString.length signature = 132)
      ∨ isErr (env.nonces buyer) = true
      ∨ isErr (env.checksum seller) = true
      ∨ isErr (env.checksum token) = true
      ∨ (∀ n sA tA s m, env.nonces buyer = .ok n → env.checksum seller = .ok sA →
          env.checksum token = .ok tA → env.recover signature = some (s, m) →
          ¬(s = buyer ∧ m = TypedMessage.createEscrow sA amount tA deliveryDeadline n))
      ∨ isErr env.relayerBalance = true
      ∨ (∃ bal, env.relayerBalance = .ok bal ∧ bal < parseEther001)
      ∨ isErr (env.estimateGas (Call.relayCreateEscrow seller amount token
          deliveryDeadline buyer signature)) = true
      ∨ isErr env.gasPrice = true
      ∨ (∀ gl gp r,
          env.estimateGas (Call.relayCreateEscrow seller amount token
            deliveryDeadline buyer signature) = .ok gl →
          env.gasPrice = .ok gp →
          env.simulate (Call.relayCreateEscrow seller amount token
            deliveryDeadline buyer signature) gl
            (adjustedGasPrice gp env.gasMult100) ≠ .ok r)) :
    writeCount (relayCreateEscrow env seller amount token deliveryDeadline
      buyer signature).trace = 0 := by
  unfold relayCreateEscrow executeTransaction verifyTypedData
  simp only [Bind.bind, M.bind, M.chainCall, M.emit, M.throwErr, M.lift, Pure.pure,
    M.instMonad]
  rcases h with h | h | h | h | h | h | ⟨bal, hb, hlt⟩ | h | h | h
  case inr.inr.inr.inr.inl =>
    split
    · simp [writeCount]
    · rcases hn : env.nonces buyer with e | n
      · simp [hn, writeCount, Event.isWrite]
      · rcases hcs : env.checksum seller with e | sA
        · simp [hn, hcs, writeCount, Event.isWrite]
        · rcases hct : env.checksum token with e | tA
          · simp [hn, hcs, hct, writeCount, Event.isWrite]
          · rcases hr : env.recover signature with _ | ⟨s, m⟩
            · simp [hn, hcs, hct, hr, writeCount, Event.isWrite]
            · have hbeq : (s == buyer &&
                  m == TypedMessage.createEscrow sA amount tA deliveryDeadline n)
                    = false := by
                have hnot := h n sA tA s m hn hcs hct hr
                rcases Decidable.em (s = buyer) with hsb | hsb
                · have hm : m ≠ TypedMessage.createEscrow sA amount tA deliveryDeadline n :=
                    fun hm => hnot ⟨hsb, hm⟩
                  simp [hsb, beq_eq_false_iff_ne.mpr hm]
                · simp [beq_eq_false_iff_ne.mpr hsb]
              simp [hn, hcs, hct, hr, hbeq, writeCount, Event.isWrite]
  all_goals (repeat' split)
  all_goals
    simp_all [writeCount, Event.isWrite, isErr, List.filter_append,
      Bool.and_eq_true, beq_iff_eq]

/-- If any step before submission fails in a fund-escrow run, no on-chain
write is issued. -/
theorem fund_zero_writes (env : Env) (escrowId buyer signature : String)
    (h : isErr (env.nonces buyer) = true
      ∨ (∀ n s m, env.nonces buyer = .ok n → env.recover signature = some (s, m) →
          ¬(s = buyer ∧ m = TypedMessage.fundEscrow escrowId n))
      ∨ isErr (env.escrowDetails escrowId) = true
      ∨ isErr (env.userBalance buyer) = true
      ∨ isErr (env.userAllowance buyer) = true
      ∨ (∃ d bal, env.escrowDetails escrowId = .ok d ∧ env.userBalance buyer = .ok bal
          ∧ bal < d.amount)
      ∨ (∃ d alw, env.escrowDetails escrowId = .ok d ∧ env.userAllowance buyer = .ok alw
          ∧ alw < d.amount)
      ∨ isErr (env.estimateGas (Call.relayFundEscrow escrowId buyer signature)) = true
      ∨ isErr env.gasPrice = true
      ∨ (∀ gl gp r,
          env.estimateGas (Call.relayFundEscrow escrowId buyer signature) = .ok gl →
          env.gasPrice = .ok gp →
          env.simulate (Call.relayFundEscrow escrowId buyer signature) gl
            (adjustedGasPrice gp env.gasMult100) ≠ .ok r)) :
    writeCount (relayFundEscrow env escrowId buyer signature).trace = 0 := by
  unfold relayFundEscrow executeTransaction verifyTypedData
  simp only [Bind.bind, M.bind, M.chainCall, M.emit, M.throwErr, M.lift, Pure.pure,
    M.instMonad]
  rcases h with h | h | h | h | h | ⟨d, bal, hd, hb, hlt⟩ | ⟨d, alw, hd, ha, hlt⟩ | h | h | h
  all_goals (repeat' split)
  all_goals
    simp_all [writeCount, Event.isWrite, isErr, List.filter_append,
      Bool.and_eq_true, beq_iff_eq]

/-- If any step before submission fails in a confirm-delivery run, no
on-chain write is issued. -/
theorem confirm_zero_writes (env : Env) (escrowId buyer signature : String)
    (h : isErr (env.nonces buyer) = true
      ∨ (∀ n s m, env.nonces buyer = .ok n → env.recover signature = some (s, m) →
          ¬(s = buyer ∧ m = TypedMessage.confirmDelivery escrowId n))
      ∨ isErr (env.estimateGas (Call.relayConfirmDelivery escrowId buyer signature)) = true
      ∨ isErr env.gasPrice = true
      ∨ (∀ gl gp r,
          env.estimateGas (Call.relayConfirmDelivery escrowId buyer signature) = .ok gl →
          env.gasPrice = .ok gp →
          env.simulate (Call.relayConfirmDelivery escrowId buyer signature) gl
            (adjustedGasPrice gp env.gasMult100) ≠ .ok r)) :
    writeCount (relayConfirmDelivery env escrowId buyer signature).trace = 0 := by
  unfold relayConfirmDelivery executeTransaction verifyTypedData
  simp only [Bind.bind, M.bind, M.chainCall, M.emit, M.throwErr, M.lift, Pure.pure,
    M.instMonad]
  rcases h with h | h | h | h | h
  all_goals (repeat' split)
  all_goals
    simp_all [writeCount, Event.isWrite, isErr, List.filter_append,
      Bool.and_eq_true, beq_iff_eq]

/-- If any step before submission fails in a store-document run, no
on-chain write is issued. -/
theorem store_zero_writes (env : Env) (escrowId documentHash seller signature : String)
    (h : ¬(JsString.startsWith documentHash "0x" = true
          ∧ JsString.length documentHash = 66)
      ∨ isErr (env.nonces seller) = true
      ∨ (∀ n s m, env.nonces seller = .ok n → env.recover signature = some (s, m) →
          ¬(s = seller ∧ m = TypedMessage.storeDocument escrowId documentHash n))
      ∨ isErr (env.estimateGas (Call.relayStoreDocument escrowId documentHash seller
          signature)) = true
      ∨ isErr env.gasPrice = true
      ∨ (∀ gl gp r,
          env.estimateGas (Call.relayStoreDocument escrowId documentHash seller
            signature) = .ok gl →
          env.gasPrice = .ok gp →
          env.simulate (Call.relayStoreDocument escrowId documentHash seller
            signature) gl (adjustedGasPrice gp env.gasMult100) ≠ .ok r)) :
    writeCount (relayStoreDocument env escrowId documentHash seller signature).trace
      = 0 := by
  unfold relayStoreDocument executeTransaction verifyTypedData
  simp only [Bind.bind, M.bind, M.chainCall, M.emit, M.throwErr, M.lift, Pure.pure,
    M.instMonad]
  rcases h with h | h | h | h | h | h
  all_goals (repeat' split)
  all_goals
    simp_all [writeCount, Event.isWrite, isErr, List.filter_append,
      Bool.and_eq_true, beq_iff_eq]

/-- Malformed signatures fail the create-escrow structural check before any
event is performed. -/
theorem create_malformed_sig (env : Env) (seller : String) (amount : Nat)
    (token : String) (deliveryDeadline : Nat) (buyer signature : String)
    (h : ¬(JsString.startsWith signature "0x" = true ∧ JsString.length signature = 132)) :
    (relayCreateEscrow env seller amount token deliveryDeadline buyer signature).res =
      .error "Invalid signature format" ∧
    (relayCreateEscrow env seller amount token deliveryDeadline buyer signature).trace
      = [] := by
  unfold relayCreateEscrow
  simp only [Bind.bind, M.bind, M.chainCall, M.emit, M.throwErr, M.lift, Pure.pure,
    M.instMonad]
  rcases not_and_or.mp h with h | h
  all_goals simp_all

/-- Once the nonce read succeeds, a fund-escrow run always attempts
cryptographic recovery, whatever the signature's shape. -/
theorem fund_always_recovers (env : Env) (escrowId buyer signature : String) (n : Nat)
    (hn : env.nonces buyer = .ok n) :
    verifyAttempts (relayFundEscrow env escrowId buyer signature).trace = 1 := by
  unfold relayFundEscrow executeTransaction verifyTypedData
  simp only [Bind.bind, M.bind, M.chainCall, M.emit, M.throwErr, M.lift, Pure.pure,
    M.instMonad]
  repeat' split
  all_goals
    simp_all [verifyAttempts, Event.isVerify, List.filter_append]

/-- Once the nonce read succeeds, a confirm-delivery run always attempts
cryptographic recovery, whatever the signature's shape (and whatever the
escrow id's shape: no structural identifier check is performed). -/
theorem confirm_always_recovers (env : Env) (escrowId buyer signature : String) (n : Nat)
    (hn : env.nonces buyer = .ok n) :
    verifyAttempts (relayConfirmDelivery env escrowId buyer signature).trace = 1 := by
  unfold relayConfirmDelivery executeTransaction verifyTypedData
  simp only [Bind.bind, M.bind, M.chainCall, M.emit, M.throwErr, M.lift, Pure.pure,
    M.instMonad]
  repeat' split
  all_goals
    simp_all [verifyAttempts, Event.isVerify, List.filter_append]

/-- Once the document hash is well-formed and the nonce read succeeds, a
store-document run always attempts cryptographic recovery, whatever the
signature's shape. -/
theorem store_always_recovers (env : Env) (escrowId documentHash seller signature : String)
    (n : Nat)
    (h0x : JsString.startsWith documentHash "0x" = true)
    (hlen : JsString.length documentHash = 66)
    (hn : env.nonces seller = .ok n) :
    verifyAttempts (relayStoreDocument env escrowId documentHash seller signature).trace
      = 1 := by
  unfold relayStoreDocument executeTransaction verifyTypedData
  simp only [Bind.bind, M.bind, M.chainCall, M.emit, M.throwErr, M.lift, Pure.pure,
    M.instMonad]
  repeat' split
  all_goals
    simp_all [verifyAttempts, Event.isVerify, List.filter_append]

/-- Confirm-delivery runs perform no balance, allowance, escrow or
relayer-balance reads. -/
theorem confirm_no_preflight (env : Env) (escrowId buyer signature : String) :
    preflightReadCount (relayConfirmDelivery env escrowId buyer signature).trace = 0 := by
  unfold relayConfirmDelivery executeTransaction verifyTypedData
  simp only [Bind.bind, M.bind, M.chainCall, M.emit, M.throwErr, M.lift, Pure.pure,
    M.instMonad]
  repeat' split
  all_goals
    simp_all [preflightReadCount, Event.isPreflightRead, List.filter_append]

/-- Store-document runs perform no balance, allowance, escrow or
relayer-balance reads. -/
theorem store_no_preflight (env : Env) (escrowId documentHash seller signature : String) :
    preflightReadCount (relayStoreDocument env escrowId documentHash seller
      signature).trace = 0 := by
  unfold relayStoreDocument executeTransaction verifyTypedData
  simp only [Bind.bind, M.bind, M.chainCall, M.emit, M.throwErr, M.lift, Pure.pure,
    M.instMonad]
  repeat' split
  all_goals
    simp_all [preflightReadCount, Event.isPreflightRead, List.filter_append]

/-- A confirm-delivery request carrying a structurally malformed escrow id
is rejected during verification, before any gas estimation or submission:
no signature can recover to a message with an unencodable `bytes32` field,
so the reconstruction never matches — in the real library the same
validation makes `verifyTypedData` throw even earlier. -/
theorem confirm_malformed_id (env : Env) (escrowId buyer signature : String) (n : Nat)
    (hwf : env.recoverWellFormed)
    (hn : env.nonces buyer = .ok n)
    (hbad : wellFormedBytes32 escrowId = false) :
    isErr (relayConfirmDelivery env escrowId buyer signature).res = true ∧
    estimateCount (relayConfirmDelivery env escrowId buyer signature).trace = 0 ∧
    writeCount (relayConfirmDelivery env escrowId buyer signature).trace = 0 := by
  unfold relayConfirmDelivery verifyTypedData
  simp only [Bind.bind, M.bind, M.chainCall, M.emit, M.throwErr, M.lift, Pure.pure,
    M.instMonad]
  rcases hr : env.recover signature with _ | ⟨s, m⟩
  · simp [hn, hr, isErr, estimateCount, writeCount, Event.isEstimate, Event.isWrite]
  · have hne : m ≠ TypedMessage.confirmDelivery escrowId n := by
      intro hm
      have hm' := hwf signature s m hr
      rw [hm] at hm'
      simp [TypedMessage.encodable, hbad] at hm'
    have hbeq : (m == TypedMessage.confirmDelivery escrowId n) = false :=
      beq_eq_false_iff_ne.mpr hne
    simp [hn, hr, hbeq, isErr, estimateCount, writeCount, Event.isEstimate, Event.isWrite]

/-- A store-document request with a well-formed document hash but a
structurally malformed escrow id is likewise rejected during verification,
before any gas estimation or submission. -/
theorem store_malformed_id (env : Env)
    (escrowId documentHash seller signature : String) (n : Nat)
    (hwf : env.recoverWellFormed)
    (h0x : JsString.startsWith documentHash "0x" = true)
    (hlen : JsString.length documentHash = 66)
    (hn : env.nonces seller = .ok n)
    (hbad : wellFormedBytes32 escrowId = false) :
    isErr (relayStoreDocument env escrowId documentHash seller signature).res = true ∧
    estimateCount (relayStoreDocument env escrowId documentHash seller
      signature).trace = 0 ∧
    writeCount (relayStoreDocument env escrowId documentHash seller
      signature).trace = 0 := by
  unfold relayStoreDocument verifyTypedData
  simp only [Bind.bind, M.bind, M.chainCall, M.emit, M.throwErr, M.lift, Pure.pure,
    M.instMonad]
  rcases hr : env.recover signature with _ | ⟨s, m⟩
  · simp [h0x, hlen, hn, hr, isErr, estimateCount, writeCount, Event.isEstimate,
      Event.isWrite]
  · have hne : m ≠ TypedMessage.storeDocument escrowId documentHash n := by
      intro hm
      have hm' := hwf signature s m hr
      rw [hm] at hm'
      simp [TypedMessage.encodable, hbad] at hm'
    have hbeq : (m == TypedMessage.storeDocument escrowId documentHash n) = false :=
      beq_eq_false_iff_ne.mpr hne
    simp [h0x, hlen, hn, hr, hbeq, isErr, estimateCount, writeCount, Event.isEstimate,
      Event.isWrite]

/-- Malformed document hashes fail the store-document structural check
before any event is performed. -/
theorem store_malformed_hash (env : Env) (escrowId documentHash seller signature : String)
    (h : ¬(JsString.startsWith documentHash "0x" = true
        ∧ JsString.length documentHash = 66)) :
    (relayStoreDocument env escrowId documentHash seller signature).res =
      .error "Invalid document hash format" ∧
    (relayStoreDocument env escrowId documentHash seller signature).trace = [] := by
  unfold relayStoreDocument
  simp only [Bind.bind, M.bind, M.chainCall, M.emit, M.throwErr, M.lift, Pure.pure,
    M.instMonad]
  rcases not_and_or.mp h with h | h
  all_goals simp_all

/-- When every pipeline step succeeds, the create-escrow run returns the
response assembled from the confirmed receipt. -/
theorem create_success (env : Env) (seller : String) (amount : Nat) (token : String)
    (deliveryDeadline : Nat) (buyer signature : String)
    (n : Nat) (sA tA : String) (bal gl gp : Nat) (req : PreparedRequest)
    (hash : String) (R : Receipt)
    (h0x : JsString.startsWith signature "0x" = true)
    (hlen : JsString.length signature = 132)
    (hn : env.nonces buyer = .ok n)
    (hcs : env.checksum seller = .ok sA)
    (hct : env.checksum token = .ok tA)
    (hrec : env.recover signature =
      some (buyer, TypedMessage.createEscrow sA amount tA deliveryDeadline n))
    (hbal : env.relayerBalance = .ok bal)
    (hge : ¬ bal < parseEther001)
    (hest : env.estimateGas (Call.relayCreateEscrow seller amount token deliveryDeadline
      buyer signature) = .ok gl)
    (hgp : env.gasPrice = .ok gp)
    (hsim : env.simulate (Call.relayCreateEscrow seller amount token deliveryDeadline
      buyer signature) gl (adjustedGasPrice gp env.gasMult100) = .ok req)
    (hw : env.writeContract req = .ok hash)
    (hr : env.waitForReceipt hash = .ok R) :
    (relayCreateEscrow env seller amount token deliveryDeadline buyer signature).res =
      .ok (createEscrowResponse env R) := by
  unfold relayCreateEscrow executeTransaction verifyTypedData
  simp only [Bind.bind, M.bind, M.chainCall, M.emit, M.throwErr, M.lift, Pure.pure,
    M.instMonad]
  simp [h0x, hlen, hn, hcs, hct, hrec, hbal, hge, hest, hgp, hsim, hw, hr]

/-- When log extraction throws, the assembled response still reports
success, with the transaction hash standing in for the escrow id. -/
theorem response_fallback (env : Env) (R : Receipt) (err : String)
    (h : extractEscrowIdFromLogs env R.logs = .error err) :
    createEscrowResponse env R =
      { success := true, escrowId := some R.transactionHash,
        transactionHash := R.transactionHash, gasUsed := R.gasUsed } := by
  simp [createEscrowResponse, h]

/-- When log extraction finds the event, its result is the reported
escrow id. -/
theorem response_from_event (env : Env) (R : Receipt) (id : Option String)
    (h : extractEscrowIdFromLogs env R.logs = .ok id) :
    createEscrowResponse env R =
      { success := true, escrowId := id,
        transactionHash := R.transactionHash, gasUsed := R.gasUsed } := by
  simp [createEscrowResponse, h]

/-- A successful extraction returns `topics[1]` of a log whose topic 0 is
the `EscrowCreated` event signature. -/
theorem extract_first_topic (env : Env) :
    ∀ (logs : List Log) (id : Option String),
      extractEscrowIdFromLogs env logs = .ok id →
      ∃ l ∈ logs, l.topics.head? = some (env.keccak256 escrowCreatedSigText)
        ∧ id = l.topics.get? 1 := by
  intro logs
  induction logs with
  | nil => intro id h; simp [extractEscrowIdFromLogs] at h
  | cons log rest ih =>
    intro id h
    rcases log with ⟨topics⟩
    rcases topics with _ | ⟨t0, ts⟩
    · simp only [extractEscrowIdFromLogs] at h
      obtain ⟨l, hl, hp⟩ := ih id h
      exact ⟨l, List.mem_cons_of_mem _ hl, hp⟩
    · by_cases ht : t0 == env.keccak256 escrowCreatedSigText
      · refine ⟨⟨t0 :: ts⟩, List.mem_cons_self _ _, ?_, ?_⟩
        · simpa using (beq_iff_eq.mp ht)
        · simp only [extractEscrowIdFromLogs, ht, if_true] at h
          cases h
          cases ts <;> simp
      · simp only [extractEscrowIdFromLogs, ht, if_false] at h
        obtain ⟨l, hl, hp⟩ := ih id h
        exact ⟨l, List.mem_cons_of_mem _ hl, hp⟩

/-! Claim theorems. -/

/-- C1: for each of the four relay operations, the nonce used in the
reconstructed typed message is read fresh from the chain in the same
request (the trace is exactly the nonce read followed by the recovery
attempt) before signature verification; consequently, for any signature
produced over nonce `N`, if the authoritative on-chain nonce read at
verification time differs from `N`, verification fails, the operation
throws `Invalid signature`, and no submission is issued. -/
theorem claim_C1 :
    (∀ (env : Env) (seller : String) (amount : Nat) (token : String)
        (deliveryDeadline : Nat) (buyer signature : String)
        (N n : Nat) (signer : String) (m : TypedMessage) (sA tA : String),
      JsString.startsWith signature "0x" = true →
      JsString.length signature = 132 →
      env.nonces buyer = .ok n →
      env.checksum seller = .ok sA →
      env.checksum token = .ok tA →
      env.recover signature = some (signer, m) →
      m.nonce = N → n ≠ N →
      (relayCreateEscrow env seller amount token deliveryDeadline buyer signature).res
          = .error "Invalid signature" ∧
      (relayCreateEscrow env seller amount token deliveryDeadline buyer signature).trace
          = [.getNonce buyer, .verifySig buyer signature] ∧
      writeCount (relayCreateEscrow env seller amount token deliveryDeadline
          buyer signature).trace = 0) ∧
    (∀ (env : Env) (escrowId buyer signature : String)
        (N n : Nat) (signer : String) (m : TypedMessage),
      env.nonces buyer = .ok n →
      env.recover signature = some (signer, m) →
      m.nonce = N → n ≠ N →
      (relayFundEscrow env escrowId buyer signature).res = .error "Invalid signature" ∧
      (relayFundEscrow env escrowId buyer signature).trace =
        [.getNonce buyer, .verifySig buyer signature] ∧
      writeCount (relayFundEscrow env escrowId buyer signature).trace = 0) ∧
    (∀ (env : Env) (escrowId buyer signature : String)
        (N n : Nat) (signer : String) (m : TypedMessage),
      env.nonces buyer = .ok n →
      env.recover signature = some (signer, m) →
      m.nonce = N → n ≠ N →
      (relayConfirmDelivery env escrowId buyer signature).res
          = .error "Invalid signature" ∧
      (relayConfirmDelivery env escrowId buyer signature).trace =
        [.getNonce buyer, .verifySig buyer signature] ∧
      writeCount (relayConfirmDelivery env escrowId buyer signature).trace = 0) ∧
    (∀ (env : Env) (escrowId documentHash seller signature : String)
        (N n : Nat) (signer : String) (m : TypedMessage),
      JsString.startsWith documentHash "0x" = true →
      JsString.length documentHash = 66 →
      env.nonces seller = .ok n →
      env.recover signature = some (signer, m) →
      m.nonce = N → n ≠ N →
      (relayStoreDocument env escrowId documentHash seller signature).res
          = .error "Invalid signature" ∧
      (relayStoreDocument env escrowId documentHash seller signature).trace =
        [.getNonce seller, .verifySig seller signature] ∧
      writeCount (relayStoreDocument env escrowId documentHash seller
          signature).trace = 0) :=
  ⟨create_nonce_mismatch, fund_nonce_mismatch, confirm_nonce_mismatch,
   store_nonce_mismatch⟩

/-- C1 witness: in `envReplay` the chain nonce is 8 while all four test
signatures were produced over nonce 7, so each operation rejects with
`Invalid signature` after exactly the nonce read and the recovery attempt. -/
theorem claim_C1_witness :
    ((relayCreateEscrow envReplay "0xseller" 5 "0xtoken" 99 "0xbuyer" sig132a).res
        = .error "Invalid signature" ∧
      (relayCreateEscrow envReplay "0xseller" 5 "0xtoken" 99 "0xbuyer" sig132a).trace
        = [.getNonce "0xbuyer", .verifySig "0xbuyer" sig132a] ∧
      writeCount (relayCreateEscrow envReplay "0xseller" 5 "0xtoken" 99 "0xbuyer"
        sig132a).trace = 0) ∧
    ((relayFundEscrow envReplay "0xe" "0xbuyer" "0xfund").res
        = .error "Invalid signature" ∧
      (relayFundEscrow envReplay "0xe" "0xbuyer" "0xfund").trace =
        [.getNonce "0xbuyer", .verifySig "0xbuyer" "0xfund"] ∧
      writeCount (relayFundEscrow envReplay "0xe" "0xbuyer" "0xfund").trace = 0) ∧
    ((relayConfirmDelivery envReplay "0xe" "0xbuyer" "0xconf").res
        = .error "Invalid signature" ∧
      (relayConfirmDelivery envReplay "0xe" "0xbuyer" "0xconf").trace =
        [.getNonce "0xbuyer", .verifySig "0xbuyer" "0xconf"] ∧
      writeCount (relayConfirmDelivery envReplay "0xe" "0xbuyer" "0xconf").trace = 0) ∧
    ((relayStoreDocument envReplay "0xe" hash66b "0xseller" "0xstore").res
        = .error "Invalid signature" ∧
      (relayStoreDocument envReplay "0xe" hash66b "0xseller" "0xstore").trace =
        [.getNonce "0xseller", .verifySig "0xseller" "0xstore"] ∧
      writeCount (relayStoreDocument envReplay "0xe" hash66b "0xseller"
        "0xstore").trace = 0) :=
  ⟨claim_C1.1 envReplay "0xseller" 5 "0xtoken" 99 "0xbuyer" sig132a 7 8 "0xbuyer"
      (TypedMessage.createEscrow "0xseller" 5 "0xtoken" 99 7) "0xseller" "0xtoken"
      (by decide) (by decide) rfl rfl rfl (by decide) rfl (by decide),
   claim_C1.2.1 envReplay "0xe" "0xbuyer" "0xfund" 7 8 "0xbuyer"
      (TypedMessage.fundEscrow "0xe" 7) rfl (by decide) rfl (by decide),
   claim_C1.2.2.1 envReplay "0xe" "0xbuyer" "0xconf" 7 8 "0xbuyer"
      (TypedMessage.confirmDelivery "0xe" 7) rfl (by decide) rfl (by decide),
   claim_C1.2.2.2 envReplay "0xe" hash66b "0xseller" "0xstore" 7 8 "0xseller"
      (TypedMessage.storeDocument "0xe" hash66b 7) (by decide) (by decide) rfl
      (by decide) rfl (by decide)⟩

/-- C2: every relay operation issues at most one on-chain write
(`writeContract`) per request, and if any step before submission
(signature validation, nonce read, preflight check, gas estimation, gas
price read, or simulation) fails, zero submissions are issued. -/
theorem claim_C2 :
    (∀ (env : Env) (seller : String) (amount : Nat) (token : String)
        (deliveryDeadline : Nat) (buyer signature : String),
      writeCount (relayCreateEscrow env seller amount token deliveryDeadline
        buyer signature).trace ≤ 1) ∧
    (∀ (env : Env) (escrowId buyer signature : String),
      writeCount (relayFundEscrow env escrowId buyer signature).trace ≤ 1) ∧
    (∀ (env : Env) (escrowId buyer signature : String),
      writeCount (relayConfirmDelivery env escrowId buyer signature).trace ≤ 1) ∧
    (∀ (env : Env) (escrowId documentHash seller signature : String),
      writeCount (relayStoreDocument env escrowId documentHash seller signature).trace
        ≤ 1) ∧
    (∀ (env : Env) (seller : String) (amount : Nat) (token : String)
        (deliveryDeadline : Nat) (buyer signature : String),
      (¬(JsString.startsWith signature "0x" = true ∧ JsString.length signature = 132)
        ∨ isErr (env.nonces buyer) = true
        ∨ isErr (env.checksum seller) = true
        ∨ isErr (env.checksum token) = true
        ∨ (∀ n sA tA s m, env.nonces buyer = .ok n → env.checksum seller = .ok sA →
            env.checksum token = .ok tA → env.recover signature = some (s, m) →
            ¬(s = buyer ∧ m = TypedMessage.createEscrow sA amount tA deliveryDeadline n))
        ∨ isErr env.relayerBalance = true
        ∨ (∃ bal, env.relayerBalance = .ok bal ∧ bal < parseEther001)
        ∨ isErr (env.estimateGas (Call.relayCreateEscrow seller amount token
            deliveryDeadline buyer signature)) = true
        ∨ isErr env.gasPrice = true
        ∨ (∀ gl gp r,
            env.estimateGas (Call.relayCreateEscrow seller amount token
              deliveryDeadline buyer signature) = .ok gl →
            env.gasPrice = .ok gp →
            env.simulate (Call.relayCreateEscrow seller amount token
              deliveryDeadline buyer signature) gl
              (adjustedGasPrice gp env.gasMult100) ≠ .ok r)) →
      writeCount (relayCreateEscrow env seller amount token deliveryDeadline
        buyer signature).trace = 0) ∧
    (∀ (env : Env) (escrowId buyer signature : String),
      (isErr (env.nonces buyer) = true
        ∨ (∀ n s m, env.nonces buyer = .ok n → env.recover signature = some (s, m) →
            ¬(s = buyer ∧ m = TypedMessage.fundEscrow escrowId n))
        ∨ isErr (env.escrowDetails escrowId) = true
        ∨ isErr (env.userBalance buyer) = true
        ∨ isErr (env.userAllowance buyer) = true
        ∨ (∃ d bal, env.escrowDetails escrowId = .ok d ∧ env.userBalance buyer = .ok bal
            ∧ bal < d.amount)
        ∨ (∃ d alw, env.escrowDetails escrowId = .ok d ∧ env.userAllowance buyer = .ok alw
            ∧ alw < d.amount)
        ∨ isErr (env.estimateGas (Call.relayFundEscrow escrowId buyer signature)) = true
        ∨ isErr env.gasPrice = true
        ∨ (∀ gl gp r,
            env.estimateGas (Call.relayFundEscrow escrowId buyer signature) = .ok gl →
            env.gasPrice = .ok gp →
            env.simulate (Call.relayFundEscrow escrowId buyer signature) gl
              (adjustedGasPrice gp env.gasMult100) ≠ .ok r)) →
      writeCount (relayFundEscrow env escrowId buyer signature).trace = 0) ∧
    (∀ (env : Env) (escrowId buyer signature : String),
      (isErr (env.nonces buyer) = true
        ∨ (∀ n s m, env.nonces buyer = .ok n → env.recover signature = some (s, m) →
            ¬(s = buyer ∧ m = TypedMessage.confirmDelivery escrowId n))
        ∨ isErr (env.estimateGas (Call.relayConfirmDelivery escrowId buyer signature))
            = true
        ∨ isErr env.gasPrice = true
        ∨ (∀ gl gp r,
            env.estimateGas (Call.relayConfirmDelivery escrowId buyer signature)
              = .ok gl →
            env.gasPrice = .ok gp →
            env.simulate (Call.relayConfirmDelivery escrowId buyer signature) gl
              (adjustedGasPrice gp env.gasMult100) ≠ .ok r)) →
      writeCount (relayConfirmDelivery env escrowId buyer signature).trace = 0) ∧
    (∀ (env : Env) (escrowId documentHash seller signature : String),
      (¬(JsString.startsWith documentHash "0x" = true
            ∧ JsString.length documentHash = 66)
        ∨ isErr (env.nonces seller) = true
        ∨ (∀ n s m, env.nonces seller = .ok n → env.recover signature = some (s, m) →
            ¬(s = seller ∧ m = TypedMessage.storeDocument escrowId documentHash n))
        ∨ isErr (env.estimateGas (Call.relayStoreDocument escrowId documentHash seller
            signature)) = true
        ∨ isErr env.gasPrice = true
        ∨ (∀ gl gp r,
            env.estimateGas (Call.relayStoreDocument escrowId documentHash seller
              signature) = .ok gl →
            env.gasPrice = .ok gp →
            env.simulate (Call.relayStoreDocument escrowId documentHash seller
              signature) gl (adjustedGasPrice gp env.gasMult100) ≠ .ok r)) →
      writeCount (relayStoreDocument env escrowId documentHash seller signature).trace
        = 0) :=
  ⟨create_writes_le_one, fund_writes_le_one, confirm_writes_le_one,
   store_writes_le_one, create_zero_writes, fund_zero_writes, confirm_zero_writes,
   store_zero_writes⟩

/-- C2 witness: at the all-succeeding environment each operation writes at
most once; in `envDown`, where the nonce read throws, each operation issues
zero submissions. -/
theorem claim_C2_witness :
    writeCount (relayFundEscrow baseEnv "0xe" "0xbuyer" "0xfund").trace ≤ 1 ∧
    writeCount (relayCreateEscrow envDown "0xseller" 5 "0xtoken" 99 "0xbuyer"
      sig132a).trace = 0 ∧
    writeCount (relayFundEscrow envDown "0xe" "0xbuyer" "0xfund").trace = 0 ∧
    writeCount (relayConfirmDelivery envDown "0xe" "0xbuyer" "0xconf").trace = 0 ∧
    writeCount (relayStoreDocument envDown "0xe" hash66b "0xseller"
      "0xstore").trace = 0 :=
  ⟨claim_C2.2.1 baseEnv "0xe" "0xbuyer" "0xfund",
   claim_C2.2.2.2.2.1 envDown "0xseller" 5 "0xtoken" 99 "0xbuyer" sig132a
     (Or.inr (Or.inl (by decide))),
   claim_C2.2.2.2.2.2.1 envDown "0xe" "0xbuyer" "0xfund" (Or.inl (by decide)),
   claim_C2.2.2.2.2.2.2.1 envDown "0xe" "0xbuyer" "0xconf" (Or.inl (by decide)),
   claim_C2.2.2.2.2.2.2.2 envDown "0xe" hash66b "0xseller" "0xstore"
     (Or.inr (Or.inl (by decide)))⟩

/-- C3 counterexample: the claim says every variant validates the
signature's hex prefix and length structurally and fails fast before any
cryptographic recovery; but for `relayFundEscrow` the malformed signature
`zz` (no `0x` prefix, length 2 rather than 132) still reaches the recovery
attempt (one `verifySig` event) and is rejected as `Invalid signature`, not
by a structural format error. -/
theorem claim_C3_counterexample :
    verifyAttempts (relayFundEscrow baseEnv "0xe" "0xbuyer" "zz").trace = 1 ∧
    (relayFundEscrow baseEnv "0xe" "0xbuyer" "zz").res = .error "Invalid signature" ∧
    JsString.startsWith "zz" "0x" = false ∧ JsString.length "zz" = 2 := by
  decide

/-- C3 (amended): only the CreateEscrow variant validates the signature's
hex prefix and 132-character length before recovery, failing fast with
`Invalid signature format` and performing no events at all; FundEscrow,
ConfirmDelivery and StoreDocument perform no structural signature check and
attempt cryptographic recovery on any signature string once the nonce read
(and, for StoreDocument, the document-hash check) succeeds. -/
theorem claim_C3 :
    (∀ (env : Env) (seller : String) (amount : Nat) (token : String)
        (deliveryDeadline : Nat) (buyer signature : String),
      ¬(JsString.startsWith signature "0x" = true ∧ JsString.length signature = 132) →
      (relayCreateEscrow env seller amount token deliveryDeadline buyer signature).res =
        .error "Invalid signature format" ∧
      (relayCreateEscrow env seller amount token deliveryDeadline buyer signature).trace
        = []) ∧
    (∀ (env : Env) (escrowId buyer signature : String) (n : Nat),
      env.nonces buyer = .ok n →
      verifyAttempts (relayFundEscrow env escrowId buyer signature).trace = 1) ∧
    (∀ (env : Env) (escrowId buyer signature : String) (n : Nat),
      env.nonces buyer = .ok n →
      verifyAttempts (relayConfirmDelivery env escrowId buyer signature).trace = 1) ∧
    (∀ (env : Env) (escrowId documentHash seller signature : String) (n : Nat),
      JsString.startsWith documentHash "0x" = true →
      JsString.length documentHash = 66 →
      env.nonces seller = .ok n →
      verifyAttempts (relayStoreDocument env escrowId documentHash seller
        signature).trace = 1) :=
  ⟨create_malformed_sig, fund_always_recovers, confirm_always_recovers,
   store_always_recovers⟩

/-- C3 witness: the malformed signature `zz` fails the create-escrow
structural check with no events, while the other three variants attempt
recovery on it. -/
theorem claim_C3_witness :
    ((relayCreateEscrow baseEnv "0xseller" 5 "0xtoken" 99 "0xbuyer" "zz").res =
        .error "Invalid signature format" ∧
      (relayCreateEscrow baseEnv "0xseller" 5 "0xtoken" 99 "0xbuyer" "zz").trace = []) ∧
    verifyAttempts (relayFundEscrow baseEnv "0xe2" "0xbuyer" "zz").trace = 1 ∧
    verifyAttempts (relayConfirmDelivery baseEnv "0xe2" "0xbuyer" "zz").trace = 1 ∧
    verifyAttempts (relayStoreDocument baseEnv "0xe2" hash66b "0xseller"
      "zz").trace = 1 :=
  ⟨claim_C3.1 baseEnv "0xseller" 5 "0xtoken" 99 "0xbuyer" "zz" (by decide),
   claim_C3.2.1 baseEnv "0xe2" "0xbuyer" "zz" 7 rfl,
   claim_C3.2.2.1 baseEnv "0xe2" "0xbuyer" "zz" 7 rfl,
   claim_C3.2.2.2 baseEnv "0xe2" hash66b "0xseller" "zz" 7 (by decide) (by decide) rfl⟩

/-- C4: for every fund-escrow request that passes signature verification,
a buyer balance below the escrow amount fails with `Insufficient USDC
balance`, and otherwise an allowance below the amount fails with
`Insufficient USDC allowance`, in both cases with no gas-estimation call
issued (the preflight short-circuits). -/
theorem claim_C4 (env : Env) (escrowId buyer signature : String)
    (n : Nat) (d : EscrowDetails) (bal alw : Nat)
    (hn : env.nonces buyer = .ok n)
    (hrec : env.recover signature = some (buyer, TypedMessage.fundEscrow escrowId n))
    (hd : env.escrowDetails escrowId = .ok d)
    (hb : env.userBalance buyer = .ok bal)
    (ha : env.userAllowance buyer = .ok alw) :
    (bal < d.amount →
      (relayFundEscrow env escrowId buyer signature).res =
        .error "Insufficient USDC balance" ∧
      estimateCount (relayFundEscrow env escrowId buyer signature).trace = 0) ∧
    (¬ bal < d.amount → alw < d.amount →
      (relayFundEscrow env escrowId buyer signature).res =
        .error "Insufficient USDC allowance" ∧
      estimateCount (relayFundEscrow env escrowId buyer signature).trace = 0) := by
  unfold relayFundEscrow verifyTypedData
  simp only [Bind.bind, M.bind, M.chainCall, M.emit, M.throwErr, M.lift, Pure.pure,
    M.instMonad]
  constructor
  · intro hlt
    simp [hn, hrec, hd, hb, ha, hlt, estimateCount, Event.isEstimate]
  · intro hge hlt
    simp [hn, hrec, hd, hb, ha, hge, hlt, estimateCount, Event.isEstimate]

/-- C4 witness: with escrow amount 100, a buyer balance of 10 is rejected
for insufficient balance, and a balance of 500 with allowance 60 is
rejected for insufficient allowance, both before gas estimation. -/
theorem claim_C4_witness :
    ((relayFundEscrow envShortBal "0xe" "0xbuyer" "0xfund").res =
        .error "Insufficient USDC balance" ∧
      estimateCount (relayFundEscrow envShortBal "0xe" "0xbuyer" "0xfund").trace = 0) ∧
    ((relayFundEscrow envShortAllow "0xe" "0xbuyer" "0xfund").res =
        .error "Insufficient USDC allowance" ∧
      estimateCount (relayFundEscrow envShortAllow "0xe" "0xbuyer"
        "0xfund").trace = 0) :=
  ⟨(claim_C4 envShortBal "0xe" "0xbuyer" "0xfund" 7 escrowSnap 10 1000
      rfl (by decide) rfl rfl rfl).1 (by decide),
   (claim_C4 envShortAllow "0xe" "0xbuyer" "0xfund" 7 escrowSnap 500 60
      rfl (by decide) rfl rfl rfl).2 (by decide) (by decide)⟩

/-- C5: for every create-escrow request that passes signature verification,
a relayer native balance below the `parseEther('0.01')` floor fails with
`Relayer balance too low` before any gas-estimation call is issued. -/
theorem claim_C5 (env : Env) (seller : String) (amount : Nat)
    (token : String) (deliveryDeadline : Nat) (buyer signature : String)
    (n : Nat) (sA tA : String) (bal : Nat)
    (h0x : JsString.startsWith signature "0x" = true)
    (hlen : JsString.length signature = 132)
    (hn : env.nonces buyer = .ok n)
    (hcs : env.checksum seller = .ok sA)
    (hct : env.checksum token = .ok tA)
    (hrec : env.recover signature =
      some (buyer, TypedMessage.createEscrow sA amount tA deliveryDeadline n))
    (hbal : env.relayerBalance = .ok bal)
    (hlt : bal < parseEther001) :
    (relayCreateEscrow env seller amount token deliveryDeadline buyer signature).res =
      .error "Relayer balance too low" ∧
    estimateCount (relayCreateEscrow env seller amount token deliveryDeadline
      buyer signature).trace = 0 := by
  unfold relayCreateEscrow verifyTypedData
  simp only [Bind.bind, M.bind, M.chainCall, M.emit, M.throwErr, M.lift, Pure.pure,
    M.instMonad]
  simp [h0x, hlen, hn, hcs, hct, hrec, hbal, hlt, estimateCount, Event.isEstimate]

/-- C5 witness: in `envPoor` the relayer balance is `10^15` wei, below the
`10^16` floor, and a fully verified create-escrow request is rejected with
`Relayer balance too low` before gas estimation. -/
theorem claim_C5_witness :
    (relayCreateEscrow envPoor "0xseller" 5 "0xtoken" 99 "0xbuyer" sig132a).res =
      .error "Relayer balance too low" ∧
    estimateCount (relayCreateEscrow envPoor "0xseller" 5 "0xtoken" 99 "0xbuyer"
      sig132a).trace = 0 :=
  claim_C5 envPoor "0xseller" 5 "0xtoken" 99 "0xbuyer" sig132a 7 "0xseller" "0xtoken"
    (10 ^ 15) (by decide) (by decide) rfl rfl rfl (by decide) rfl (by decide)

/-- C6 counterexample: the claim says a `GET /health` request is never
rejected with 429 regardless of how many requests the client identity has
made in the window; but with the default 100-point limit and a client that
has already consumed 100 points, the rate-limiter middleware — which does
not skip `/health` — answers 429. -/
theorem claim_C6_counterexample :
    (handleRequest plainConfig exhaustedState healthReq).1 = .tooMany := by
  decide

/-- C6 (amended): `GET /health` bypasses API-key authentication (it is
never answered 401), but it is subject to rate limiting like every other
route: it is answered with the health payload exactly when the client
identity still has points left in the window, and with 429 otherwise. -/
theorem claim_C6 (cfg : AppConfig) (st : RateLimiterState) (req : HttpRequest)
    (hpath : req.path = "/health") :
    (handleRequest cfg st req).1 ≠ .unauthorized ∧
    ((handleRequest cfg st req).1 = .health ∨
      (handleRequest cfg st req).1 = .tooMany) ∧
    ((handleRequest cfg st req).1 = .health ↔
      st.consumed req.ip < cfg.rateLimitPoints) := by
  unfold handleRequest apiKeyGate RateLimiterState.consume
  by_cases hlt : st.consumed req.ip < cfg.rateLimitPoints <;> simp [hpath, hlt]

/-- C6 witness: a fresh client's health request is answered with the health
payload, not 401. -/
theorem claim_C6_witness :
    (handleRequest plainConfig freshState healthReq).1 ≠ .unauthorized ∧
    ((handleRequest plainConfig freshState healthReq).1 = .health ∨
      (handleRequest plainConfig freshState healthReq).1 = .tooMany) ∧
    ((handleRequest plainConfig freshState healthReq).1 = .health ↔
      freshState.consumed healthReq.ip < plainConfig.rateLimitPoints) :=
  claim_C6 plainConfig freshState healthReq rfl

/-- C7: for every create-escrow request whose transaction confirms, if no
`EscrowCreated` log is located in the receipt (extraction throws), the
response still reports `success: true` with the transaction hash standing
in for the escrow id; when extraction succeeds, the reported escrow id is
`topics[1]` of a log whose topic 0 is the event signature. -/
theorem claim_C7 :
    (∀ (env : Env) (seller : String) (amount : Nat) (token : String)
        (deliveryDeadline : Nat) (buyer signature : String)
        (n : Nat) (sA tA : String) (bal gl gp : Nat) (req : PreparedRequest)
        (hash : String) (R : Receipt) (err : String),
      JsString.startsWith signature "0x" = true →
      JsString.length signature = 132 →
      env.nonces buyer = .ok n →
      env.checksum seller = .ok sA →
      env.checksum token = .ok tA →
      env.recover signature =
        some (buyer, TypedMessage.createEscrow sA amount tA deliveryDeadline n) →
      env.relayerBalance = .ok bal →
      ¬ bal < parseEther001 →
      env.estimateGas (Call.relayCreateEscrow seller amount token deliveryDeadline
        buyer signature) = .ok gl →
      env.gasPrice = .ok gp →
      env.simulate (Call.relayCreateEscrow seller amount token deliveryDeadline
        buyer signature) gl (adjustedGasPrice gp env.gasMult100) = .ok req →
      env.writeContract req = .ok hash →
      env.waitForReceipt hash = .ok R →
      extractEscrowIdFromLogs env R.logs = .error err →
      (relayCreateEscrow env seller amount token deliveryDeadline buyer signature).res =
        .ok { success := true, escrowId := some R.transactionHash,
              transactionHash := R.transactionHash, gasUsed := R.gasUsed }) ∧
    (∀ (env : Env) (seller : String) (amount : Nat) (token : String)
        (deliveryDeadline : Nat) (buyer signature : String)
        (n : Nat) (sA tA : String) (bal gl gp : Nat) (req : PreparedRequest)
        (hash : String) (R : Receipt) (id : Option String),
      JsString.startsWith signature "0x" = true →
      JsString.length signature = 132 →
      env.nonces buyer = .ok n →
      env.checksum seller = .ok sA →
      env.checksum token = .ok tA →
      env.recover signature =
        some (buyer, TypedMessage.createEscrow sA amount tA deliveryDeadline n) →
      env.relayerBalance = .ok bal →
      ¬ bal < parseEther001 →
      env.estimateGas (Call.relayCreateEscrow seller amount token deliveryDeadline
        buyer signature) = .ok gl →
      env.gasPrice = .ok gp →
      env.simulate (Call.relayCreateEscrow seller amount token deliveryDeadline
        buyer signature) gl (adjustedGasPrice gp env.gasMult100) = .ok req →
      env.writeContract req = .ok hash →
      env.waitForReceipt hash = .ok R →
      extractEscrowIdFromLogs env R.logs = .ok id →
      (relayCreateEscrow env seller amount token deliveryDeadline buyer signature).res =
        .ok { success := true, escrowId := id,
              transactionHash := R.transactionHash, gasUsed := R.gasUsed }) ∧
    (∀ (env : Env) (logs : List Log) (id : Option String),
      extractEscrowIdFromLogs env logs = .ok id →
      ∃ l ∈ logs, l.topics.head? = some (env.keccak256 escrowCreatedSigText)
        ∧ id = l.topics.get? 1) := by
  refine ⟨?_, ?_, extract_first_topic⟩
  · intro env seller amount token deliveryDeadline buyer signature n sA tA bal gl gp
      req hash R err h0x hlen hn hcs hct hrec hbal hge hest hgp hsim hw hr hx
    rw [create_success env seller amount token deliveryDeadline buyer signature n sA tA
      bal gl gp req hash R h0x hlen hn hcs hct hrec hbal hge hest hgp hsim hw hr,
      response_fallback env R err hx]
  · intro env seller amount token deliveryDeadline buyer signature n sA tA bal gl gp
      req hash R id h0x hlen hn hcs hct hrec hbal hge hest hgp hsim hw hr hx
    rw [create_success env seller amount token deliveryDeadline buyer signature n sA tA
      bal gl gp req hash R h0x hlen hn hcs hct hrec hbal hge hest hgp hsim hw hr,
      response_from_event env R id hx]

/-- C7 witness: in `envSigned` the receipt has no logs and the response
falls back to the transaction hash with `success: true`; in `envEvent` the
receipt carries an `EscrowCreated` log and the response reports its
topic 1 (`0xid1`). -/
theorem claim_C7_witness :
    (relayCreateEscrow envSigned "0xseller" 5 "0xtoken" 99 "0xbuyer" sig132a).res =
      .ok { success := true, escrowId := some "0xtxhash",
            transactionHash := "0xtxhash", gasUsed := 42 } ∧
    (relayCreateEscrow envEvent "0xseller" 5 "0xtoken" 99 "0xbuyer" sig132a).res =
      .ok { success := true, escrowId := some "0xid1",
            transactionHash := "0xtxhash", gasUsed := 42 } :=
  ⟨claim_C7.1 envSigned "0xseller" 5 "0xtoken" 99 "0xbuyer" sig132a 7 "0xseller"
      "0xtoken" (10 ^ 17) 21000 1000
      ⟨Call.relayCreateEscrow "0xseller" 5 "0xtoken" 99 "0xbuyer" sig132a, 21000, 1100⟩
      "0xtxhash" ⟨"0xtxhash", 42, []⟩
      "EscrowCreated event not found in transaction logs"
      (by decide) (by decide) rfl rfl rfl (by decide) rfl (by decide) rfl rfl
      (by decide) rfl rfl rfl,
   claim_C7.2.1 envEvent "0xseller" 5 "0xtoken" 99 "0xbuyer" sig132a 7 "0xseller"
      "0xtoken" (10 ^ 17) 21000 1000
      ⟨Call.relayCreateEscrow "0xseller" 5 "0xtoken" 99 "0xbuyer" sig132a, 21000, 1100⟩
      "0xtxhash" ⟨"0xtxhash", 42, [⟨["0xevsig", "0xid1"]⟩]⟩ (some "0xid1")
      (by decide) (by decide) rfl rfl rfl (by decide) rfl (by decide) rfl rfl
      (by decide) rfl rfl (by decide)⟩

/-- C8: for every ConfirmDelivery and StoreDocument request the carried
identifiers are structurally checked before gas estimation and submission:
a malformed document hash fails the relayer's own check with no events at
all, and a structurally malformed escrow id makes the run fail in the
verification step — no EIP-712 signature exists over a message with an
unencodable `bytes32` field (in the real library `verifyTypedData` itself
throws a size-mismatch error during typed-data validation), so the run
throws with zero gas-estimation calls and zero submissions.  Neither
variant performs any balance, allowance or contract-status preflight
read. -/
theorem claim_C8 :
    (∀ (env : Env) (escrowId buyer signature : String) (n : Nat),
      env.recoverWellFormed →
      env.nonces buyer = .ok n →
      wellFormedBytes32 escrowId = false →
      isErr (relayConfirmDelivery env escrowId buyer signature).res = true ∧
      estimateCount (relayConfirmDelivery env escrowId buyer signature).trace = 0 ∧
      writeCount (relayConfirmDelivery env escrowId buyer signature).trace = 0) ∧
    (∀ (env : Env) (escrowId documentHash seller signature : String) (n : Nat),
      env.recoverWellFormed →
      JsString.startsWith documentHash "0x" = true →
      JsString.length documentHash = 66 →
      env.nonces seller = .ok n →
      wellFormedBytes32 escrowId = false →
      isErr (relayStoreDocument env escrowId documentHash seller signature).res = true ∧
      estimateCount (relayStoreDocument env escrowId documentHash seller
        signature).trace = 0 ∧
      writeCount (relayStoreDocument env escrowId documentHash seller
        signature).trace = 0) ∧
    (∀ (env : Env) (escrowId documentHash seller signature : String),
      ¬(JsString.startsWith documentHash "0x" = true
          ∧ JsString.length documentHash = 66) →
      (relayStoreDocument env escrowId documentHash seller signature).res =
        .error "Invalid document hash format" ∧
      (relayStoreDocument env escrowId documentHash seller signature).trace = []) ∧
    (∀ (env : Env) (escrowId buyer signature : String),
      preflightReadCount (relayConfirmDelivery env escrowId buyer signature).trace
        = 0) ∧
    (∀ (env : Env) (escrowId documentHash seller signature : String),
      preflightReadCount (relayStoreDocument env escrowId documentHash seller
        signature).trace = 0) :=
  ⟨fun env escrowId buyer signature n hwf hn hbad =>
      confirm_malformed_id env escrowId buyer signature n hwf hn hbad,
   fun env escrowId documentHash seller signature n hwf h0x hlen hn hbad =>
      store_malformed_id env escrowId documentHash seller signature n hwf h0x hlen
        hn hbad,
   store_malformed_hash, confirm_no_preflight, store_no_preflight⟩

/-- C8 witness: in `baseEnv` (whose recovery oracle returns no message, so
it is trivially well formed) the malformed escrow id `garbage` makes both
operations throw with zero gas estimations and zero writes; the malformed
document hash `zz` fails fast with no events; and neither operation
performs a preflight read. -/
theorem claim_C8_witness :
    (isErr (relayConfirmDelivery baseEnv "garbage" "0xbuyer" "0xconf").res = true ∧
      estimateCount (relayConfirmDelivery baseEnv "garbage" "0xbuyer"
        "0xconf").trace = 0 ∧
      writeCount (relayConfirmDelivery baseEnv "garbage" "0xbuyer"
        "0xconf").trace = 0) ∧
    (isErr (relayStoreDocument baseEnv "garbage" hash66b "0xseller" "0xstore").res
        = true ∧
      estimateCount (relayStoreDocument baseEnv "garbage" hash66b "0xseller"
        "0xstore").trace = 0 ∧
      writeCount (relayStoreDocument baseEnv "garbage" hash66b "0xseller"
        "0xstore").trace = 0) ∧
    ((relayStoreDocument baseEnv "0xe3" "zz" "0xseller" "0xstore").res =
        .error "Invalid document hash format" ∧
      (relayStoreDocument baseEnv "0xe3" "zz" "0xseller" "0xstore").trace = []) ∧
    preflightReadCount (relayConfirmDelivery baseEnv "0xe3" "0xbuyer" "zz").trace = 0 ∧
    preflightReadCount (relayStoreDocument baseEnv "0xe3" hash66b "0xseller"
      "zz").trace = 0 :=
  ⟨claim_C8.1 baseEnv "garbage" "0xbuyer" "0xconf" 7
      (fun _ _ _ h => Option.noConfusion h) rfl (by decide),
   claim_C8.2.1 baseEnv "garbage" hash66b "0xseller" "0xstore" 7
      (fun _ _ _ h => Option.noConfusion h) (by decide) (by decide) rfl (by decide),
   claim_C8.2.2.1 baseEnv "0xe3" "zz" "0xseller" "0xstore" (by decide),
   claim_C8.2.2.2.1 baseEnv "0xe3" "0xbuyer" "zz",
   claim_C8.2.2.2.2 baseEnv "0xe3" hash66b "0xseller" "zz"⟩

/-- C9: for every transaction execution, once the network gas price `g` is
read, the simulation is issued at the adjusted gas price
`g * gasMult100 / 100` in integer arithmetic with truncating division,
where `gasMult100 = Math.floor(multiplier * 100)`; for the default
multiplier 1.1 this is `g * 110 / 100`. -/
theorem claim_C9 (env : Env) (method : Call) (gasLimit g : Nat)
    (h : env.gasPrice = .ok g) :
    (executeTransaction env method gasLimit).trace.take 2 =
      [.getGasPrice, .simulate method gasLimit (adjustedGasPrice g env.gasMult100)] ∧
    adjustedGasPrice g env.gasMult100 = g * env.gasMult100 / 100 ∧
    (env.gasMult100 = 110 → adjustedGasPrice g env.gasMult100 = g * 110 / 100) := by
  refine ⟨?_, rfl, fun h110 => by simp [adjustedGasPrice, h110]⟩
  unfold executeTransaction
  simp only [Bind.bind, M.bind, M.chainCall, M.emit, M.throwErr, M.lift, Pure.pure,
    M.instMonad]
  repeat' split
  all_goals simp_all

/-- C9 witness: at gas price 1000 and the default multiplier the
simulation is issued at gas price `1000 * 110 / 100 = 1100`. -/
theorem claim_C9_witness :
    (executeTransaction baseEnv (Call.relayFundEscrow "0xe" "0xbuyer" "0xfund")
        21000).trace.take 2 =
      [.getGasPrice, .simulate (Call.relayFundEscrow "0xe" "0xbuyer" "0xfund") 21000
        (adjustedGasPrice 1000 baseEnv.gasMult100)] ∧
    adjustedGasPrice 1000 baseEnv.gasMult100 = 1000 * baseEnv.gasMult100 / 100 ∧
    (baseEnv.gasMult100 = 110 →
      adjustedGasPrice 1000 baseEnv.gasMult100 = 1000 * 110 / 100) :=
  claim_C9 baseEnv (Call.relayFundEscrow "0xe" "0xbuyer" "0xfund") 21000 1000 rfl

/-- C10: every POST relay endpoint's missing-required-field check uses JS
falsiness: the handler returns 400 `Missing required fields` without
invoking the service exactly when some required body field is falsy — and
the number 0, the empty string and an absent field are all falsy, so they
are rejected identically. -/
theorem claim_C10 :
    (∀ b : CreateEscrowBody,
      createEscrowRoute b = .badRequest "Missing required fields" ↔
        (b.seller.truthy = false ∨ b.amount.truthy = false ∨ b.token.truthy = false
          ∨ b.deliveryDeadline.truthy = false ∨ b.buyer.truthy = false
          ∨ b.signature.truthy = false)) ∧
    (∀ b : EscrowActionBody,
      fundEscrowRoute b = .badRequest "Missing required fields" ↔
        (b.escrowId.truthy = false ∨ b.buyer.truthy = false
          ∨ b.signature.truthy = false)) ∧
    (∀ b : EscrowActionBody,
      confirmDeliveryRoute b = .badRequest "Missing required fields" ↔
        (b.escrowId.truthy = false ∨ b.buyer.truthy = false
          ∨ b.signature.truthy = false)) ∧
    (∀ b : StoreDocumentBody,
      storeDocumentRoute b = .badRequest "Missing required fields" ↔
        (b.escrowId.truthy = false ∨ b.documentHash.truthy = false
          ∨ b.seller.truthy = false ∨ b.signature.truthy = false)) ∧
    JsValue.truthy (.number 0) = false ∧ JsValue.truthy (.str "") = false
      ∧ JsValue.truthy .undef = false := by
  refine ⟨?_, ?_, ?_, ?_, by decide, by decide, by decide⟩
  all_goals
    intro b
    simp only [createEscrowRoute, fundEscrowRoute, confirmDeliveryRoute,
      storeDocumentRoute]
    split
    case isTrue hc =>
      simp only [Bool.or_eq_true, Bool.not_eq_true'] at hc
      exact iff_of_true rfl (by tauto)
    case isFalse hc =>
      rw [Bool.not_eq_true] at hc
      simp only [Bool.or_eq_false_iff, Bool.not_eq_false] at hc
      simp_all

end EscrowLisk
